import Mathlib

/-!
# Verification of `server/check_mongo.py`

A shallow embedding of the diagnostic script `check_mongo.py`, which
connects to a MongoDB server, pings it, counts the documents of a fixed
collection and prints up to a fixed number of sample documents.

The MongoDB server and the pymongo driver are external collaborators,
treated as a black box satisfying a request/response contract.  The
environment (`Env`) records the behaviour of that black box during one
run: whether the initial ping fails, the contents of the collection,
and fault injections for the count and the cursor-iteration phases.
Documents are opaque (`Doc` is a type parameter) and the library call
`bson.json_util.dumps(doc, indent=2)` is an abstract rendering function
`dumps : Doc → String` supplied to the output renderer.

The run function `run` is a line-by-line translation of `main()`:
its result records the stdout lines (as structured `Line` values, each
carrying exactly the data the corresponding Python `print` formats),
the stderr lines (as strings), the process exit code, the number of
times `client.close()` ran, and the list of server requests issued.
-/

namespace CheckMongo

/-- `MONGO_URI` constant of `check_mongo.py` (line 6). -/
def MONGO_URI : String := "mongodb://localhost:27017"

/-- `DB_NAME` constant of `check_mongo.py` (line 7). -/
def DB_NAME : String := "clever_record_keeper"

/-- `COLLECTION_NAME` constant of `check_mongo.py` (line 8). -/
def COLLECTION_NAME : String := "students"

/-- `SAMPLE_LIMIT` constant of `check_mongo.py` (line 9). -/
def SAMPLE_LIMIT : Nat := 5

/-- Requests the script can issue to the MongoDB server: the liveness
ping (`client.admin.command('ping')`), the count
(`col.count_documents({})`) and the limited find (`col.find({})`). -/
inductive Req where
  | ping
  | count
  | find
  deriving DecidableEq, Repr

/-- One stdout line of the script, as a structured value carrying the
data of the corresponding Python `print` call.  `Line.render` produces
the exact text printed. -/
inductive Line (Doc : Type) where
  /-- `print(f"Connected to {MONGO_URI} -> DB: {DB_NAME} -> Collection: {COLLECTION_NAME}")` -/
  | connected
  /-- `print(f"Document count: {count}")` -/
  | docCount (n : Nat)
  /-- `print("Collection is empty.")` -/
  | emptyMsg
  /-- `print(f"\nShowing up to {SAMPLE_LIMIT} sample documents:\n")` -/
  | preamble (limit : Nat)
  /-- `print(f"--- Document {i} ---")` -/
  | docHeader (i : Nat)
  /-- `print(dumps(doc, indent=2))` -/
  | docBody (d : Doc)
  /-- `print()` -/
  | blank
  deriving DecidableEq, Repr

/-- The exact text a `Line` prints, given `dumps`, the abstract
rendering `bson.json_util.dumps(·, indent=2)` used by the script. -/
def Line.render {Doc : Type} (dumps : Doc → String) : Line Doc → String
  | .connected =>
      "Connected to " ++ MONGO_URI ++ " -> DB: " ++ DB_NAME
        ++ " -> Collection: " ++ COLLECTION_NAME
  | .docCount n => "Document count: " ++ toString n
  | .emptyMsg => "Collection is empty."
  | .preamble l => "\nShowing up to " ++ toString l ++ " sample documents:\n"
  | .docHeader i => "--- Document " ++ toString i ++ " ---"
  | .docBody d => dumps d
  | .blank => ""

/-- Whether a stdout line is a `--- Document N ---` block header. -/
def Line.isDocHeader {Doc : Type} : Line Doc → Bool
  | .docHeader _ => true
  | _ => false

/-- The behaviour of the external MongoDB server during one run:
- `pingError = some e`: connection establishment / the ping raises `e`;
- `collection`: the documents of the `students` collection, in the
  server-determined natural order the find returns them;
- `countError = some e`: `col.count_documents({})` raises `e`;
- `fetchFailAfter = some (k, e)`: iterating the find cursor raises `e`
  after having yielded `k` documents. -/
structure Env (Doc : Type) where
  pingError : Option String
  collection : List Doc
  countError : Option String
  fetchFailAfter : Option (Nat × String)

/-- The observable outcome of one run of `main()`.  `established`
records whether the run reached a verified connection (the ping
succeeded), i.e. whether a resource requiring closing was opened;
`closeCount` counts how many times `client.close()` ran. -/
structure RunResult (Doc : Type) where
  stdout : List (Line Doc)
  stderr : List String
  exitCode : Nat
  established : Bool
  closeCount : Nat
  requests : List Req
  deriving Repr

/-- A run leaks the connection when it established one and never
closed it. -/
def RunResult.leaked {Doc : Type} (r : RunResult Doc) : Bool :=
  r.established && r.closeCount == 0

/-- Modelled from the spec: the driver's local handle construction
`client[DB_NAME]` (line 20), which the spec calls "pure local reference
construction" that "cannot itself fail".  pymongo is not part of this
repository; its local database-name validation (nonempty, none of the
characters the server forbids) is modelled here, so that the claim that
the step never fails is a fact about the concrete configured name
rather than true by construction. -/
def validDatabaseName (s : String) : Bool :=
  s.toList ≠ [] && s.toList.all fun c =>
    c ≠ ' ' && c ≠ '.' && c ≠ '$' && c ≠ '/' && c ≠ '\\' && c ≠ '"' && c ≠ '\x00'

/-- Modelled from the spec: the driver's local handle construction
`db[COLLECTION_NAME]` (line 21): the collection name must be nonempty,
contain no `$` and no null character, and neither start nor end with a
dot. -/
def validCollectionName (s : String) : Bool :=
  s.toList ≠ [] && s.toList.all (fun c => c ≠ '$' && c ≠ '\x00')
    && s.toList.head? ≠ some '.' && s.toList.getLast? ≠ some '.'

/-- Lines 20-21 of `check_mongo.py`: resolve the database and
collection handles.  Runs between the two `try` blocks, so an error
here would propagate uncaught. -/
def resolveTarget (dbName collName : String) : Except String (String × String) :=
  if validDatabaseName dbName && validCollectionName collName then
    .ok (dbName, collName)
  else
    .error "InvalidName"

/-- The cursor produced by `col.find({}).limit(limit)`: the documents
of the collection in server order, capped at `limit`; a limit of 0
means no limit in MongoDB. -/
def cursorDocs {Doc : Type} (limit : Nat) (coll : List Doc) : List Doc :=
  if limit = 0 then coll else coll.take limit

/-- The stdout lines of the sampling loop (lines 32-36): for the `i`-th
document (1-based) a header, the document body and a blank separator. -/
def docsOut {Doc : Type} : Nat → List Doc → List (Line Doc)
  | _, [] => []
  | i, d :: ds => Line.docHeader i :: Line.docBody d :: Line.blank :: docsOut (i + 1) ds

/-- The stderr line of the connect-failure handler (line 17):
`print(f"ERROR: Unable to connect to MongoDB at {MONGO_URI}: {e}", file=sys.stderr)`. -/
def connectErrMsg (e : String) : String :=
  "ERROR: Unable to connect to MongoDB at " ++ MONGO_URI ++ ": " ++ e

/-- The stderr line of the query-failure handler (line 38):
`print("ERROR while querying the collection:", e, file=sys.stderr)`
(Python `print` joins its arguments with a single space). -/
def queryErrMsg (e : String) : String :=
  "ERROR while querying the collection: " ++ e

/-- Shallow embedding of `main()` (lines 11-41 of `check_mongo.py`).

- Lines 12-18: connect and ping; on failure print `connectErrMsg` to
  stderr and exit 2 (`client.close()` never runs: the `try/finally`
  has not been entered).
- Lines 20-21: resolve the handles; an exception here would escape
  `main` uncaught — Python prints a traceback to stderr and the
  process exits with code 1, with no `finally` to close the client.
- Lines 23-39: count; print the connection summary and the count; if
  the count is 0 print the empty message, otherwise print the preamble
  and iterate the limited cursor printing one block per document; any
  error in this `try` prints `queryErrMsg` to stderr and exits 3.
- Lines 40-41: `finally: client.close()` runs exactly once on every
  path that entered the `try`. -/
def run {Doc : Type} (env : Env Doc) : RunResult Doc :=
  match env.pingError with
  | some e =>
      { stdout := [], stderr := [connectErrMsg e], exitCode := 2,
        established := false, closeCount := 0, requests := [.ping] }
  | none =>
      match resolveTarget DB_NAME COLLECTION_NAME with
      | .error e =>
          { stdout := [], stderr := ["Traceback (most recent call last): " ++ e],
            exitCode := 1, established := true, closeCount := 0, requests := [.ping] }
      | .ok _ =>
          match env.countError with
          | some e =>
              { stdout := [], stderr := [queryErrMsg e], exitCode := 3,
                established := true, closeCount := 1, requests := [.ping, .count] }
          | none =>
              let count := env.collection.length
              let hdr : List (Line Doc) := [.connected, .docCount count]
              if count = 0 then
                { stdout := hdr ++ [.emptyMsg], stderr := [], exitCode := 0,
                  established := true, closeCount := 1, requests := [.ping, .count] }
              else
                let avail := cursorDocs SAMPLE_LIMIT env.collection
                match env.fetchFailAfter with
                | some (k, e) =>
                    { stdout := hdr ++ [.preamble SAMPLE_LIMIT] ++ docsOut 1 (avail.take k),
                      stderr := [queryErrMsg e], exitCode := 3,
                      established := true, closeCount := 1, requests := [.ping, .count, .find] }
                | none =>
                    { stdout := hdr ++ [.preamble SAMPLE_LIMIT] ++ docsOut 1 avail,
                      stderr := [], exitCode := 0,
                      established := true, closeCount := 1, requests := [.ping, .count, .find] }

/-- A fault-free environment: the ping succeeds and neither the count
nor the cursor iteration raises. -/
def Env.faultFree {Doc : Type} (env : Env Doc) : Prop :=
  env.pingError = none ∧ env.countError = none ∧ env.fetchFailAfter = none

/-- `pat` occurs as a contiguous substring of `s` (stated on the
character lists of the strings). -/
def substrOf (pat s : String) : Prop :=
  ∃ a b : List Char, s.data = a ++ pat.data ++ b

/-- `s` starts with `pat` (stated on the character lists). -/
def prefixOf (pat s : String) : Prop :=
  ∃ b : List Char, s.data = pat.data ++ b

/-- The sampling loop prints exactly one block header per document. -/
theorem countP_isDocHeader_docsOut {Doc : Type} (ds : List Doc) :
    ∀ i : Nat, (docsOut i ds).countP Line.isDocHeader = ds.length := by
  induction ds with
  | nil => intro i; rfl
  | cons d ds ih =>
      intro i
      simp [docsOut, List.countP_cons, Line.isDocHeader, ih (i + 1)]

/-- The sampling loop output, block by block: for the `k`-th document
counting from `i`, a header with index `i + k`, the body and a blank
separator. -/
theorem docsOut_eq_enumFrom_bind {Doc : Type} (ds : List Doc) :
    ∀ i : Nat, docsOut i ds =
      (ds.enumFrom i).flatMap fun p => [Line.docHeader p.1, Line.docBody p.2, Line.blank] := by
  induction ds with
  | nil => intro i; rfl
  | cons d ds ih =>
      intro i
      simp [docsOut, List.enumFrom, ih (i + 1), List.flatMap]

/-- The limited cursor yields `min limit count` documents (for a
nonzero limit). -/
theorem length_cursorDocs {Doc : Type} (limit : Nat) (coll : List Doc)
    (h : limit ≠ 0) : (cursorDocs limit coll).length = min limit coll.length := by
  simp [cursorDocs, h, List.length_take]

theorem resolveTarget_config_ok :
    resolveTarget DB_NAME COLLECTION_NAME = .ok (DB_NAME, COLLECTION_NAME) := rfl

/-- C1: with a fault-free environment, the number of `--- Document N ---`
blocks printed to stdout equals `min SAMPLE_LIMIT C` where `C` is the
document count. -/
theorem C1_printed_blocks_min {Doc : Type} (env : Env Doc)
    (hping : env.pingError = none) (hcount : env.countError = none)
    (hfetch : env.fetchFailAfter = none) :
    ((run env).stdout.countP Line.isDocHeader) = min SAMPLE_LIMIT env.collection.length := by
  by_cases hc : env.collection.length = 0
  · simp [run, hping, hcount, hfetch, resolveTarget_config_ok, hc, Line.isDocHeader,
      List.countP_cons]
  · simp only [run, hping, hcount, hfetch, resolveTarget_config_ok, hc, if_false]
    simp [List.countP_append, List.countP_cons, Line.isDocHeader,
      countP_isDocHeader_docsOut, length_cursorDocs, SAMPLE_LIMIT]

theorem C1_witness :
    ((run (⟨none, ["a", "b", "c"], none, none⟩ : Env String)).stdout.countP Line.isDocHeader)
      = min SAMPLE_LIMIT (["a", "b", "c"] : List String).length :=
  C1_printed_blocks_min _ rfl rfl rfl

/-- C3: when connection establishment or the initial ping fails, no count
or find request is ever issued (only the ping was attempted), stdout is
empty (so it contains no `Document count` line), stderr is the single
connect-failure message, which contains the text `Unable to connect`,
and the exit code is exactly 2. -/
theorem C3_connect_failure {Doc : Type} (env : Env Doc) (e : String)
    (h : env.pingError = some e) :
    (run env).requests = [Req.ping]
    ∧ (run env).stdout = []
    ∧ (run env).stderr = [connectErrMsg e]
    ∧ substrOf "Unable to connect" (connectErrMsg e)
    ∧ (run env).exitCode = 2 := by
  refine ⟨?_, ?_, ?_, ?_, ?_⟩
  · simp [run, h]
  · simp [run, h]
  · simp [run, h]
  · exact ⟨"ERROR: ".data, " to MongoDB at mongodb://localhost:27017: ".data ++ e.data, rfl⟩
  · simp [run, h]

theorem C3_witness :
    (run (⟨some "refused", [], none, none⟩ : Env String)).requests = [Req.ping]
    ∧ (run (⟨some "refused", [], none, none⟩ : Env String)).stdout = []
    ∧ (run (⟨some "refused", [], none, none⟩ : Env String)).stderr = [connectErrMsg "refused"]
    ∧ substrOf "Unable to connect" (connectErrMsg "refused")
    ∧ (run (⟨some "refused", [], none, none⟩ : Env String)).exitCode = 2 :=
  C3_connect_failure _ "refused" rfl

/-- C2: when the count returns 0, stdout is exactly the connection
summary, the `Document count: 0` line and the `Collection is empty.`
message; no document blocks are printed, the find request is skipped
entirely, the exit code is 0 and stderr is empty. -/
theorem C2_empty_collection {Doc : Type} (dumps : Doc → String) (env : Env Doc)
    (hping : env.pingError = none) (hcount : env.countError = none)
    (hc : env.collection = []) :
    (run env).stdout.map (Line.render dumps) =
      ["Connected to mongodb://localhost:27017 -> DB: clever_record_keeper -> Collection: students",
       "Document count: 0",
       "Collection is empty."]
    ∧ (run env).stdout.countP Line.isDocHeader = 0
    ∧ Req.find ∉ (run env).requests
    ∧ (run env).exitCode = 0
    ∧ (run env).stderr = [] := by
  have hs : (run env).stdout = [Line.connected, Line.docCount 0, Line.emptyMsg] := by
    simp [run, hping, hcount, hc, resolveTarget_config_ok]
  have hr : (run env).requests = [Req.ping, Req.count] := by
    simp [run, hping, hcount, hc, resolveTarget_config_ok]
  have he : (run env).exitCode = 0 := by
    simp [run, hping, hcount, hc, resolveTarget_config_ok]
  have hst : (run env).stderr = [] := by
    simp [run, hping, hcount, hc, resolveTarget_config_ok]
  refine ⟨?_, ?_, ?_, he, hst⟩
  · rw [hs]; rfl
  · rw [hs]; rfl
  · rw [hr]; decide

theorem C2_witness :
    (run (⟨none, [], none, none⟩ : Env String)).stdout.map (Line.render id) =
      ["Connected to mongodb://localhost:27017 -> DB: clever_record_keeper -> Collection: students",
       "Document count: 0",
       "Collection is empty."]
    ∧ (run (⟨none, [], none, none⟩ : Env String)).stdout.countP Line.isDocHeader = 0
    ∧ Req.find ∉ (run (⟨none, [], none, none⟩ : Env String)).requests
    ∧ (run (⟨none, [], none, none⟩ : Env String)).exitCode = 0
    ∧ (run (⟨none, [], none, none⟩ : Env String)).stderr = [] :=
  C2_empty_collection id _ rfl rfl rfl

/-- C4: any error raised during the count or the fetch/iteration phase
after a successful connection is caught by the single collapsed handler:
the exit code is 3, stderr is the handler's one descriptive message, the
connection is closed, and neither the count nor the find request is
issued more than once (no retry, no resumed sampling). -/
theorem C4_query_failure {Doc : Type} (env : Env Doc)
    (hping : env.pingError = none)
    (hfail : env.countError ≠ none ∨ (env.collection ≠ [] ∧ env.fetchFailAfter ≠ none)) :
    (run env).exitCode = 3
    ∧ (∃ e, (run env).stderr = [queryErrMsg e])
    ∧ (run env).closeCount = 1
    ∧ (run env).requests.count Req.count ≤ 1
    ∧ (run env).requests.count Req.find ≤ 1 := by
  cases hc : env.countError with
  | some e =>
      refine ⟨?_, ⟨e, ?_⟩, ?_, ?_, ?_⟩ <;> simp [run, hping, hc, resolveTarget_config_ok]
  | none =>
      rcases hfail with hf | ⟨hne, hf⟩
      · exact absurd hc hf
      · cases hff : env.fetchFailAfter with
        | none => exact absurd hff hf
        | some p =>
            have h0 : ¬ env.collection.length = 0 := by
              simp [List.length_eq_zero, hne]
            refine ⟨?_, ⟨p.2, ?_⟩, ?_, ?_, ?_⟩ <;>
              simp [run, hping, hc, hff, h0, resolveTarget_config_ok]

theorem C4_witness :
    (run (⟨none, ["a"], some "boom", none⟩ : Env String)).exitCode = 3
    ∧ (∃ e, (run (⟨none, ["a"], some "boom", none⟩ : Env String)).stderr = [queryErrMsg e])
    ∧ (run (⟨none, ["a"], some "boom", none⟩ : Env String)).closeCount = 1
    ∧ (run (⟨none, ["a"], some "boom", none⟩ : Env String)).requests.count Req.count ≤ 1
    ∧ (run (⟨none, ["a"], some "boom", none⟩ : Env String)).requests.count Req.find ≤ 1 :=
  C4_query_failure _ rfl (Or.inl (by simp))

/-- C5: on every code path that successfully establishes the connection
(successful sampling, empty collection, and the query-failure path
exiting with code 3) the connection is closed exactly once: no
double-release and no leak. -/
theorem C5_close_exactly_once {Doc : Type} (env : Env Doc)
    (hping : env.pingError = none) :
    (run env).established = true
    ∧ (run env).closeCount = 1
    ∧ (run env).leaked = false := by
  cases hc : env.countError with
  | some e => refine ⟨?_, ?_, ?_⟩ <;> simp [run, hping, hc, resolveTarget_config_ok, RunResult.leaked]
  | none =>
      by_cases h0 : env.collection.length = 0
      · refine ⟨?_, ?_, ?_⟩ <;> simp [run, hping, hc, h0, resolveTarget_config_ok, RunResult.leaked]
      · cases hff : env.fetchFailAfter with
        | none => refine ⟨?_, ?_, ?_⟩ <;> simp [run, hping, hc, hff, h0, resolveTarget_config_ok, RunResult.leaked]
        | some p => refine ⟨?_, ?_, ?_⟩ <;> simp [run, hping, hc, hff, h0, resolveTarget_config_ok, RunResult.leaked]

theorem C5_witness :
    (run (⟨none, ["a"], none, some (0, "drop")⟩ : Env String)).established = true
    ∧ (run (⟨none, ["a"], none, some (0, "drop")⟩ : Env String)).closeCount = 1
    ∧ (run (⟨none, ["a"], none, some (0, "drop")⟩ : Env String)).leaked = false :=
  C5_close_exactly_once _ rfl

/-- The rendered text of the sampling loop output. -/
theorem map_render_docsOut {Doc : Type} (dumps : Doc → String) (ds : List Doc) :
    ∀ i : Nat, (docsOut i ds).map (Line.render dumps) =
      (ds.enumFrom i).flatMap fun p =>
        ["--- Document " ++ toString p.1 ++ " ---", dumps p.2, ""] := by
  induction ds with
  | nil => intro i; rfl
  | cons d ds ih =>
      intro i
      simp [docsOut, List.enumFrom, ih (i + 1), Line.render]

theorem prefixOf_connectErrMsg (e : String) : prefixOf "ERROR" (connectErrMsg e) :=
  ⟨(": Unable to connect to MongoDB at mongodb://localhost:27017: ").data ++ e.data, rfl⟩

theorem prefixOf_queryErrMsg (e : String) : prefixOf "ERROR" (queryErrMsg e) :=
  ⟨(" while querying the collection: ").data ++ e.data, rfl⟩

/-- C6: for each document retrieved, in sequence order, the program
prints a 1-based index label `--- Document N ---` (N starting at 1 and
increasing by 1 per document), then the document rendered by
`dumps(doc, indent=2)` (the JSON-extended pretty-printer with 2-space
indentation, held abstract as `dumps`), then a blank separator line. -/
theorem C6_block_structure {Doc : Type} (dumps : Doc → String) (env : Env Doc)
    (hping : env.pingError = none) (hcount : env.countError = none)
    (hfetch : env.fetchFailAfter = none) (hne : env.collection ≠ []) :
    (run env).stdout =
      [Line.connected, Line.docCount env.collection.length, Line.preamble SAMPLE_LIMIT]
      ++ ((cursorDocs SAMPLE_LIMIT env.collection).enumFrom 1).flatMap
           (fun p => [Line.docHeader p.1, Line.docBody p.2, Line.blank])
    ∧ (run env).stdout.map (Line.render dumps) =
      ["Connected to mongodb://localhost:27017 -> DB: clever_record_keeper -> Collection: students",
       "Document count: " ++ toString env.collection.length,
       "\nShowing up to 5 sample documents:\n"]
      ++ ((cursorDocs SAMPLE_LIMIT env.collection).enumFrom 1).flatMap
           (fun p => ["--- Document " ++ toString p.1 ++ " ---", dumps p.2, ""]) := by
  have h0 : ¬ env.collection.length = 0 := by simp [List.length_eq_zero, hne]
  have hs : (run env).stdout =
      [Line.connected, Line.docCount env.collection.length, Line.preamble SAMPLE_LIMIT]
      ++ docsOut 1 (cursorDocs SAMPLE_LIMIT env.collection) := by
    simp [run, hping, hcount, hfetch, h0, resolveTarget_config_ok]
  constructor
  · rw [hs, docsOut_eq_enumFrom_bind]
  · rw [hs, List.map_append, map_render_docsOut]
    rfl

theorem C6_witness :
    (run (⟨none, ["x", "y"], none, none⟩ : Env String)).stdout =
      [Line.connected, Line.docCount (["x", "y"] : List String).length, Line.preamble SAMPLE_LIMIT]
      ++ ((cursorDocs SAMPLE_LIMIT (["x", "y"] : List String)).enumFrom 1).flatMap
           (fun p => [Line.docHeader p.1, Line.docBody p.2, Line.blank])
    ∧ (run (⟨none, ["x", "y"], none, none⟩ : Env String)).stdout.map (Line.render id) =
      ["Connected to mongodb://localhost:27017 -> DB: clever_record_keeper -> Collection: students",
       "Document count: " ++ toString (["x", "y"] : List String).length,
       "\nShowing up to 5 sample documents:\n"]
      ++ ((cursorDocs SAMPLE_LIMIT (["x", "y"] : List String)).enumFrom 1).flatMap
           (fun p => ["--- Document " ++ toString p.1 ++ " ---", id p.2, ""]) :=
  C6_block_structure id _ rfl rfl rfl (by simp)

/-- C7: every diagnostic message written to stderr, on both the
connectivity-failure and the query-failure path, is prefixed with
`ERROR`, and no error is silently swallowed: whenever the run fails
(exit code 2 or 3), stderr is nonempty. -/
theorem C7_stderr_error_prefix {Doc : Type} (env : Env Doc) :
    (∀ s ∈ (run env).stderr, prefixOf "ERROR" s)
    ∧ ((run env).exitCode = 2 ∨ (run env).exitCode = 3 → (run env).stderr ≠ []) := by
  cases hping : env.pingError with
  | some e =>
      constructor
      · intro s hs
        have hse : s = connectErrMsg e := by simpa [run, hping] using hs
        rw [hse]
        exact prefixOf_connectErrMsg e
      · intro _
        simp [run, hping]
  | none =>
      cases hc : env.countError with
      | some e =>
          constructor
          · intro s hs
            have hse : s = queryErrMsg e := by
              simpa [run, hping, hc, resolveTarget_config_ok] using hs
            rw [hse]
            exact prefixOf_queryErrMsg e
          · intro _
            simp [run, hping, hc, resolveTarget_config_ok]
      | none =>
          by_cases h0 : env.collection.length = 0
          · constructor
            · intro s hs
              simp [run, hping, hc, h0, resolveTarget_config_ok] at hs
            · intro habs
              simp [run, hping, hc, h0, resolveTarget_config_ok] at habs
          · cases hff : env.fetchFailAfter with
            | none =>
                constructor
                · intro s hs
                  simp [run, hping, hc, hff, h0, resolveTarget_config_ok] at hs
                · intro habs
                  simp [run, hping, hc, hff, h0, resolveTarget_config_ok] at habs
            | some p =>
                constructor
                · intro s hs
                  have hse : s = queryErrMsg p.2 := by
                    simpa [run, hping, hc, hff, h0, resolveTarget_config_ok] using hs
                  rw [hse]
                  exact prefixOf_queryErrMsg p.2
                · intro _
                  simp [run, hping, hc, hff, h0, resolveTarget_config_ok]

theorem C7_witness :
    (∀ s ∈ (run (⟨some "down", [], none, none⟩ : Env String)).stderr, prefixOf "ERROR" s)
    ∧ ((run (⟨some "down", [], none, none⟩ : Env String)).exitCode = 2
        ∨ (run (⟨some "down", [], none, none⟩ : Env String)).exitCode = 3
        → (run (⟨some "down", [], none, none⟩ : Env String)).stderr ≠ []) :=
  C7_stderr_error_prefix _

/-- C8: on the connect-failure (exit code 2) path no resource requiring
closing has been opened: the connection was never established, the close
ran zero times, and nothing is leaked. -/
theorem C8_connect_failure_no_leak {Doc : Type} (env : Env Doc) (e : String)
    (h : env.pingError = some e) :
    (run env).established = false
    ∧ (run env).closeCount = 0
    ∧ (run env).leaked = false
    ∧ (run env).exitCode = 2 := by
  refine ⟨?_, ?_, ?_, ?_⟩ <;> simp [run, h, RunResult.leaked]

theorem C8_witness :
    (run (⟨some "dns", [], none, none⟩ : Env String)).established = false
    ∧ (run (⟨some "dns", [], none, none⟩ : Env String)).closeCount = 0
    ∧ (run (⟨some "dns", [], none, none⟩ : Env String)).leaked = false
    ∧ (run (⟨some "dns", [], none, none⟩ : Env String)).exitCode = 2 :=
  C8_connect_failure_no_leak _ "dns" rfl

/-- C9: the target-resolution step (constructing the
`clever_record_keeper` database handle and the `students` collection
handle) cannot fail: it succeeds for the configured names, so the code
between the two exception handlers never takes an error branch and the
process exit code is never 1 (the code an uncaught exception would
produce). -/
theorem C9_resolution_total {Doc : Type} (env : Env Doc) :
    resolveTarget DB_NAME COLLECTION_NAME = Except.ok (DB_NAME, COLLECTION_NAME)
    ∧ (run env).exitCode ≠ 1 := by
  refine ⟨rfl, ?_⟩
  cases hping : env.pingError with
  | some e => simp [run, hping]
  | none =>
      cases hc : env.countError with
      | some e => simp [run, hping, hc, resolveTarget_config_ok]
      | none =>
          by_cases h0 : env.collection.length = 0
          · simp [run, hping, hc, h0, resolveTarget_config_ok]
          · cases hff : env.fetchFailAfter with
            | none => simp [run, hping, hc, hff, h0, resolveTarget_config_ok]
            | some p => simp [run, hping, hc, hff, h0, resolveTarget_config_ok]

theorem C9_witness :
    resolveTarget DB_NAME COLLECTION_NAME = Except.ok (DB_NAME, COLLECTION_NAME)
    ∧ (run (⟨none, [], none, none⟩ : Env String)).exitCode ≠ 1 :=
  C9_resolution_total _

/-- C10: when the count operation itself fails, stdout is empty — the
connection summary and `Document count` lines are printed only after
the count succeeds — stderr carries the query-failure message, and the
exit code is 3. -/
theorem C10_count_failure_stdout_empty {Doc : Type} (env : Env Doc) (e : String)
    (hping : env.pingError = none) (hcount : env.countError = some e) :
    (run env).stdout = []
    ∧ (run env).stderr = [queryErrMsg e]
    ∧ (run env).exitCode = 3 := by
  refine ⟨?_, ?_, ?_⟩ <;> simp [run, hping, hcount, resolveTarget_config_ok]

theorem C10_witness :
    (run (⟨none, ["a", "b"], some "count failed", none⟩ : Env String)).stdout = []
    ∧ (run (⟨none, ["a", "b"], some "count failed", none⟩ : Env String)).stderr
        = [queryErrMsg "count failed"]
    ∧ (run (⟨none, ["a", "b"], some "count failed", none⟩ : Env String)).exitCode = 3 :=
  C10_count_failure_stdout_empty _ "count failed" rfl rfl

end CheckMongo
